import Mathlib

/-!
Verification of the chat route (`src/app/api/chat/route.ts`): a shallow
embedding of its stream bridge (`handleEmitterEvents`), history reconciler
(`handleHistorySave`) and request pipeline (`POST`), with theorems checking
the specification's claims against the embedded code.
-/

namespace ChatRoute

/-- A JSON value, as produced by `JSON.parse` / consumed by `JSON.stringify`. -/
inductive Json where
  | str (s : String)
  | num (n : Int)
  | bool (b : Bool)
  | null
  | arr (elems : List Json)
  | obj (fields : List (String × Json))

/-- Escaping of a single character inside a JSON string literal. -/
def escapeChar (c : Char) : String :=
  if c = '"' then "\\\""
  else if c = '\\' then "\\\\"
  else if c = '\n' then "\\n"
  else if c = '\r' then "\\r"
  else if c = '\t' then "\\t"
  else String.singleton c

/-- JSON string-literal serialization (quote and escape). -/
def quoteString (s : String) : String :=
  "\"" ++ String.join (s.data.map escapeChar) ++ "\""

mutual

/-- `JSON.stringify` for the JSON model. -/
def stringify : Json → String
  | .str s => quoteString s
  | .num n => toString n
  | .bool b => cond b "true" "false"
  | .null => "null"
  | .arr xs => "[" ++ stringifyElems xs ++ "]"
  | .obj fs => "\x7b" ++ stringifyFields fs ++ "\x7d"

/-- Comma-separated serialization of JSON array elements. -/
def stringifyElems : List Json → String
  | [] => ""
  | [x] => stringify x
  | x :: y :: xs => stringify x ++ "," ++ stringifyElems (y :: xs)

/-- Comma-separated serialization of JSON object fields. -/
def stringifyFields : List (String × Json) → String
  | [] => ""
  | [kv] => quoteString kv.1 ++ ":" ++ stringify kv.2
  | kv :: kv2 :: fs =>
    quoteString kv.1 ++ ":" ++ stringify kv.2 ++ "," ++ stringifyFields (kv2 :: fs)

end

/-- One framed record written to the client connection by `handleEmitterEvents`. -/
inductive Frame where
  | message (data : String) (messageId : String)
  | sources (data : Json) (messageId : String)
  | messageEnd
  | error (data : Json)

/-- The exact text handed to `encoder.encode` for each frame.  Every write in
the route appends `'\n'` to `JSON.stringify(...)` except the `error` write,
which passes the bare `JSON.stringify(...)` result. -/
def Frame.wireString : Frame → String
  | .message d mid =>
    stringify (.obj [("type", .str "message"), ("data", .str d), ("messageId", .str mid)]) ++ "\n"
  | .sources d mid =>
    stringify (.obj [("type", .str "sources"), ("data", d), ("messageId", .str mid)]) ++ "\n"
  | .messageEnd =>
    stringify (.obj [("type", .str "messageEnd")]) ++ "\n"
  | .error d =>
    stringify (.obj [("type", .str "error"), ("data", d)])

/-- The `WritableStreamDefaultWriter`: frames delivered so far, whether the
writer has been closed, and how many write attempts were made after close
(such writes reject and deliver nothing). -/
structure WriterState where
  written : List Frame
  closed : Bool
  failedWrites : Nat

def WriterState.write (w : WriterState) (f : Frame) : WriterState :=
  if w.closed then { w with failedWrites := w.failedWrites + 1 }
  else { w with written := w.written ++ [f] }

def WriterState.close (w : WriterState) : WriterState :=
  { w with closed := true }

/-- A row of the `messages` table.  `id` is the storage-assigned,
monotonically increasing sequence number; `content` is absent for
`role = source` rows and `sources` absent otherwise. -/
structure DBMessage where
  id : Nat
  messageId : String
  chatId : String
  role : String
  content : Option String
  sources : Option Json
  createdAt : String

/-- A row of the `chats` table.  `files` holds the derived file descriptors
in their serialized form (their equality in the route is comparison of
`JSON.stringify` output). -/
structure DBChat where
  id : String
  title : String
  createdAt : String
  focusMode : String
  files : List String
deriving DecidableEq, Repr

/-- The storage state: both tables plus the next auto-assigned `messages.id`. -/
structure DB where
  chats : List DBChat
  messages : List DBMessage
  nextId : Nat

/-- `db.insert(messagesSchema).values(...)`: the row receives the next
sequence number and is appended (list order = `id` order). -/
def DB.insertMessage (db : DB) (messageId chatId role : String)
    (content : Option String) (sources : Option Json) (createdAt : String) : DB :=
  { db with
    messages := db.messages ++ [⟨db.nextId, messageId, chatId, role, content, sources, createdAt⟩],
    nextId := db.nextId + 1 }

/-- One event received from the answer stream's emitter: a parsed `data`
payload of type `response` or `sources`, the `end` event, the `error` event,
or a `data` payload of any other type (which the listener ignores). -/
inductive StreamEvent where
  | response (data : String)
  | sources (data : Json)
  | endEvent
  | errorEvent (data : Json)
  | otherData

def StreamEvent.isTerminal : StreamEvent → Bool
  | .endEvent => true
  | .errorEvent _ => true
  | _ => false

/-- The state threaded through `handleEmitterEvents`: the accumulated text
(`recievedMessage`, spelled as in the source), a counter indexing the
randomness used for source-message ids, the client writer, and storage. -/
structure BridgeState where
  recievedMessage : String
  ctr : Nat
  writer : WriterState
  db : DB

/-- One emitter callback of `handleEmitterEvents`, for one event.
`aiMessageId` is the id generated at entry; `oracle` supplies the random
hex strings consumed by `crypto.randomBytes(7).toString('hex')` for source
messages; `now` stands for `new Date().toString()`. -/
def emitterStep (aiMessageId chatId now : String) (oracle : Nat → String)
    (s : BridgeState) : StreamEvent → BridgeState
  | .response d =>
    let w := s.writer.write (.message d aiMessageId)
    { s with writer := w, recievedMessage := s.recievedMessage ++ d }
  | .sources d =>
    let w := s.writer.write (.sources d aiMessageId)
    let sourceMessageId := oracle s.ctr
    { s with
      writer := w, ctr := s.ctr + 1,
      db := s.db.insertMessage sourceMessageId chatId "source" none (some d) now }
  | .endEvent =>
    let w := (s.writer.write .messageEnd).close
    { s with
      writer := w,
      db := s.db.insertMessage aiMessageId chatId "assistant" (some s.recievedMessage) none now }
  | .errorEvent d =>
    let w := (s.writer.write (.error d)).close
    { s with writer := w }
  | .otherData => s

/-- `handleEmitterEvents`, run over the whole sequence of events the emitter
delivers, in arrival order.  The listeners stay attached for the lifetime of
the stream; no flag guards against events after `end`/`error`. -/
def handleEmitterEvents (aiMessageId chatId now : String) (oracle : Nat → String) :
    BridgeState → List StreamEvent → BridgeState
  | s, [] => s
  | s, e :: es =>
    handleEmitterEvents aiMessageId chatId now oracle
      (emitterStep aiMessageId chatId now oracle s e) es

/-- The state at entry of `handleEmitterEvents`: empty accumulated text, an
open writer with nothing written. -/
def initialBridgeState (db : DB) : BridgeState :=
  ⟨"", 0, ⟨[], false, 0⟩, db⟩

/-- The hexadecimal alphabet of `Buffer.toString('hex')`. -/
def hexDigits : List Char := ("0123456789abcdef").data

def hexDigit (n : Nat) : Char := hexDigits.getD n '0'

/-- One byte renders as two hex characters. -/
def byteToHex (b : Nat) : List Char := [hexDigit (b / 16), hexDigit (b % 16)]

def bytesToHexList : List Nat → List Char
  | [] => []
  | b :: bs => byteToHex b ++ bytesToHexList bs

/-- `crypto.randomBytes(n).toString('hex')` on the drawn bytes. -/
def bytesToHex (bs : List Nat) : String := String.mk (bytesToHexList bs)

/-- The validated `message` field of the request body. -/
structure TurnMessage where
  messageId : String
  chatId : String
  content : String
deriving DecidableEq, Repr

/-- `handleHistorySave`.  `getFileDetails` maps a file reference id to its
derived descriptor (kept in serialized form); `now` stands for the
`new Date().toString()` values.  Storage queries are modelled on the list
state: `findFirst` is `List.find?` in `id` (insertion) order.

Two points are taken directly from the source:
* the `messages` lookup filters on `messageId` alone —
  `eq(messagesSchema.messageId, humanMessageId)` — with no `chatId`
  condition, while the subsequent delete does restrict to the chat;
* the differing-files branch builds `db.update(chats).set(...)` but never
  awaits the builder nor calls `.execute()` (every other persistence call in
  the file does), and a drizzle query builder only runs when awaited or
  executed, so no update reaches storage and the chat rows are unchanged. -/
def handleHistorySave (getFileDetails : String → String)
    (message : TurnMessage) (humanMessageId focusMode : String)
    (files : List String) (now : String) (db : DB) : DB :=
  let chat := db.chats.find? (fun c => c.id == message.chatId)
  let fileData := files.map getFileDetails
  let db1 : DB :=
    match chat with
    | none =>
      { db with chats := db.chats ++ [⟨message.chatId, message.content, now, focusMode, fileData⟩] }
    | some c =>
      if c.files != fileData then
        db
      else
        db
  let messageExists := db1.messages.find? (fun m => m.messageId == humanMessageId)
  match messageExists with
  | none =>
    db1.insertMessage humanMessageId message.chatId "user" (some message.content) none now
  | some existing =>
    { db1 with
      messages := db1.messages.filter
        (fun m => !(decide (existing.id < m.id) && m.chatId == message.chatId)) }

/-- `DEFAULT_SYSTEM_INSTRUCTIONS`, the built-in instruction set used as the
zod default for `systemInstructions`. -/
def DEFAULT_SYSTEM_INSTRUCTIONS : String := "You are a trusted Technical Troubleshooting Assistant built to help users fix issues related to gadgets, home appliances, consumer electronics, and hardware devices. Your mission is to give accurate, safe, and actionable guidance — including visual tutorials, clear steps, and trusted references.

- Always prioritize user safety, device integrity, and ethical practices.
- Do not provide guidance or responses that involve unsafe actions, disassembly of high-voltage parts, illegal modifications, or security circumvention (e.g., unlocking, jailbreaking, bypassing safety locks).

If the user’s request violates these guardrails, respond politely with a message like:

“I’m sorry, I can’t assist with that request as it may be unsafe or unethical. Would you like help diagnosing or maintaining your device safely instead?”

Response Structure (Always Follow This Order)
1. Step-by-Step Solution:
- List precise, numbered steps for troubleshooting or fixing the problem.
- Use short sentences.
- If you need special tools, please just mention them.
- Only include steps that are safe for non-professionals. Do not add long answers

2. Safety & Caution:
Mention key precautions.
If a step could be unsafe for general users, instruct them not to proceed and recommend contacting a professional.

Guardrails (Strict Rules):

You must refuse or redirect if the user request involves:
- Bypassing device security, DRM, or software restrictions (unlocking, rooting, etc.)
- Actions that could cause personal injury, fire, electric shock, or data loss

If the issue requires professional advice or hel, please mention the same at the end"

/-- The request body after JSON parsing, before zod validation.  Fields that
zod types structurally are carried with their types; `systemInstructions`
distinguishes absent (`none`) from JSON `null` (`some none`) from a string
(`some (some s)`), since `z.string().nullable().optional().default(...)`
treats those differently. -/
structure RawBody where
  message : TurnMessage
  optimizationMode : String
  focusMode : String
  history : List (String × String)
  files : List String
  chatModelProvider : Option String
  chatModelName : Option String
  embeddingModelProvider : Option String
  embeddingModelName : Option String
  systemInstructions : Option (Option String)

def optimizationModes : List String := ["speed", "balanced", "quality"]

/-- `messageSchema`: the three fields are strings of length at least 1. -/
def validateMessage (m : TurnMessage) : Bool :=
  decide (1 ≤ m.messageId.length) && decide (1 ≤ m.chatId.length) &&
    decide (1 ≤ m.content.length)

/-- `bodySchema.safeParse` success: the structurally-typed fields always
pass; the string minimums and the `optimizationMode` enum are checked. -/
def validateBody (b : RawBody) : Bool :=
  validateMessage b.message && optimizationModes.contains b.optimizationMode &&
    decide (1 ≤ b.focusMode.length)

/-- The value of `body.systemInstructions` after zod parsing:
`.default(...)` replaces only `undefined` (an absent field); `null` is let
through by `.nullable()` unchanged.  `none` on the right means the handler
receives `null`. -/
def parsedSystemInstructions : Option (Option String) → Option String
  | none => some DEFAULT_SYSTEM_INSTRUCTIONS
  | some v => v

/-- The truthiness of an optional string under JavaScript coercion:
`undefined` and the empty string are falsy. -/
def jsTruthyStr : Option String → Bool
  | none => false
  | some s => !(s == "")

/-- `a || b` on optional string keys. -/
def jsOrKey (a b : Option String) : Option String :=
  if jsTruthyStr a then a else b

/-- `Object.keys(record)[0]` with the record's insertion order. -/
def firstKey {α : Type} (record : List (String × α)) : Option String :=
  record.head?.map Prod.fst

/-- `record[key]`: property access on a JavaScript object; indexing with an
undefined key or a key that is not present yields `undefined` (`none`). -/
def recordGet {α : Type} (record : List (String × α)) (key : Option String) : Option α :=
  match key with
  | none => none
  | some k => (record.find? (fun kv => kv.fst == k)).map Prod.snd

/-- A provider's model set: model name to the truthiness of the entry's
`.model` field.  A catalog maps provider keys to provider model sets. -/
abbrev ProviderModels := List (String × Bool)

abbrev Catalog := List (String × ProviderModels)

/-- Outcome of the model-resolution section of `POST` when no exception is
thrown. -/
inductive ModelPhaseOutcome where
  | invalidChatModel
  | invalidEmbeddingModel
  | resolved
deriving DecidableEq, Repr

/-- Lines 285–328 of the route.  `.error ()` stands for a thrown
`TypeError`: indexing into an undefined provider object
(`chatModelProvider[...]`, `embeddingProvider[...]`, including the
`Object.keys(undefined)` inside the index expression) and reading `.model`
off an undefined `embeddingModel` all throw, and the surrounding
`try`/`catch` turns that into the generic 500 response. -/
def resolveModelsPhase (chatModelProviders embeddingModelProviders : Catalog)
    (b : RawBody) : Except Unit ModelPhaseOutcome :=
  match recordGet chatModelProviders (jsOrKey b.chatModelProvider (firstKey chatModelProviders)) with
  | none => .error ()
  | some chatModelProvider =>
    let chatModel := recordGet chatModelProvider (jsOrKey b.chatModelName (firstKey chatModelProvider))
    match recordGet embeddingModelProviders
        (jsOrKey b.embeddingModelProvider (firstKey embeddingModelProviders)) with
    | none => .error ()
    | some embeddingProvider =>
      match recordGet embeddingProvider
          (jsOrKey b.embeddingModelName (firstKey embeddingProvider)) with
      | none => .error ()
      | some embedding =>
        let llm : Bool :=
          if b.chatModelProvider == some "custom_openai" then true
          else chatModel.getD false
        if !llm then .ok .invalidChatModel
        else if !embedding then .ok .invalidEmbeddingModel
        else .ok .resolved

/-- The HTTP response of `POST`, by shape. -/
inductive PostResponse where
  | badRequestInvalidBody
  | badRequestEmptyContent
  | badRequestError (error : String)
  | badRequestMessage (message : String)
  | serverError
  | streamingResponse
deriving DecidableEq, Repr

/-- The `POST` handler up to the point where the streaming response is
returned: validation, the explicit empty-content guard, model resolution
(with thrown errors caught as the generic 500), and the focus-mode lookup
(`searchHandlers[body.focusMode]`, given by its domain predicate). -/
def POST (chatModelProviders embeddingModelProviders : Catalog)
    (searchHandlerExists : String → Bool) (b : RawBody) : PostResponse :=
  if !validateBody b then .badRequestInvalidBody
  else if b.message.content == "" then .badRequestEmptyContent
  else
    match resolveModelsPhase chatModelProviders embeddingModelProviders b with
    | .error () => .serverError
    | .ok .invalidChatModel => .badRequestError "Invalid chat model"
    | .ok .invalidEmbeddingModel => .badRequestError "Invalid embedding model"
    | .ok .resolved =>
      if !searchHandlerExists b.focusMode then .badRequestMessage "Invalid focus mode"
      else .streamingResponse

/-- The text fragment of a `response` event, when the event is one. -/
def responsePayload : StreamEvent → Option String
  | .response d => some d
  | _ => none

/-- Concatenation, in arrival order, of all `response` fragment payloads of
an event sequence. -/
def concatResponses : List StreamEvent → String
  | [] => ""
  | .response d :: es => d ++ concatResponses es
  | _ :: es => concatResponses es

/-- The frame the bridge relays to the client for one event, if any:
`response` and `sources` events are relayed, everything else is not. -/
def relayFrame (aiMessageId : String) : StreamEvent → Option Frame
  | .response d => some (.message d aiMessageId)
  | .sources d => some (.sources d aiMessageId)
  | _ => none

/-- The `data` payload of a `message` frame, when the frame is one. -/
def messageFramePayload : Frame → Option String
  | .message d _ => some d
  | _ => none

/-- Whether a frame is one of the two terminal frames. -/
def Frame.isTerminal : Frame → Bool
  | .messageEnd => true
  | .error _ => true
  | _ => false

/-- The `messageId` field a frame carries, when it has one. -/
def Frame.frameMessageId : Frame → Option String
  | .message _ mid => some mid
  | .sources _ mid => some mid
  | _ => none

/-! ### Helper lemmas -/

theorem WriterState.write_open (w : WriterState) (f : Frame) (hw : w.closed = false) :
    w.write f = ⟨w.written ++ [f], false, w.failedWrites⟩ := by
  obtain ⟨wr, cl, fw⟩ := w
  subst hw
  rfl

theorem emitterStep_response (aiId chatId now : String) (oracle : Nat → String)
    (s : BridgeState) (d : String) (hw : s.writer.closed = false) :
    emitterStep aiId chatId now oracle s (.response d) =
      ⟨s.recievedMessage ++ d, s.ctr,
       ⟨s.writer.written ++ [.message d aiId], false, s.writer.failedWrites⟩, s.db⟩ := by
  obtain ⟨r, c, w, db⟩ := s
  simp only [emitterStep]
  rw [WriterState.write_open _ _ hw]

theorem emitterStep_sources (aiId chatId now : String) (oracle : Nat → String)
    (s : BridgeState) (d : Json) (hw : s.writer.closed = false) :
    emitterStep aiId chatId now oracle s (.sources d) =
      ⟨s.recievedMessage, s.ctr + 1,
       ⟨s.writer.written ++ [.sources d aiId], false, s.writer.failedWrites⟩,
       s.db.insertMessage (oracle s.ctr) chatId "source" none (some d) now⟩ := by
  obtain ⟨r, c, w, db⟩ := s
  simp only [emitterStep]
  rw [WriterState.write_open _ _ hw]

theorem emitterStep_end (aiId chatId now : String) (oracle : Nat → String)
    (s : BridgeState) (hw : s.writer.closed = false) :
    emitterStep aiId chatId now oracle s .endEvent =
      ⟨s.recievedMessage, s.ctr,
       ⟨s.writer.written ++ [.messageEnd], true, s.writer.failedWrites⟩,
       s.db.insertMessage aiId chatId "assistant" (some s.recievedMessage) none now⟩ := by
  obtain ⟨r, c, w, db⟩ := s
  simp only [emitterStep]
  rw [WriterState.write_open _ _ hw]
  rfl

theorem emitterStep_error (aiId chatId now : String) (oracle : Nat → String)
    (s : BridgeState) (d : Json) (hw : s.writer.closed = false) :
    emitterStep aiId chatId now oracle s (.errorEvent d) =
      ⟨s.recievedMessage, s.ctr,
       ⟨s.writer.written ++ [.error d], true, s.writer.failedWrites⟩, s.db⟩ := by
  obtain ⟨r, c, w, db⟩ := s
  simp only [emitterStep]
  rw [WriterState.write_open _ _ hw]
  rfl

theorem handleEmitterEvents_append (aiId chatId now : String) (oracle : Nat → String)
    (es1 es2 : List StreamEvent) (s : BridgeState) :
    handleEmitterEvents aiId chatId now oracle s (es1 ++ es2) =
      handleEmitterEvents aiId chatId now oracle
        (handleEmitterEvents aiId chatId now oracle s es1) es2 := by
  induction es1 generalizing s with
  | nil => rfl
  | cons e es ih =>
    simp only [List.cons_append, handleEmitterEvents]
    exact ih _

theorem filterMap_relay_payload (aiId : String) (es : List StreamEvent) :
    (es.filterMap (relayFrame aiId)).filterMap messageFramePayload
      = es.filterMap responsePayload := by
  induction es with
  | nil => rfl
  | cons e es ih =>
    cases e <;> simp [relayFrame, messageFramePayload, responsePayload, ih]

theorem relay_filter_terminal (aiId : String) (es : List StreamEvent) :
    (es.filterMap (relayFrame aiId)).filter Frame.isTerminal = [] := by
  induction es with
  | nil => rfl
  | cons e es ih =>
    cases e <;> simp [relayFrame, Frame.isTerminal, ih]

theorem relay_messageId (aiId : String) (es : List StreamEvent) :
    ∀ f ∈ es.filterMap (relayFrame aiId), ∀ mid, f.frameMessageId = some mid → mid = aiId := by
  induction es with
  | nil => simp
  | cons e es ih =>
    intro f hf mid hmid
    cases e with
    | response d =>
      rw [List.filterMap_cons] at hf
      simp only [relayFrame] at hf
      rcases List.mem_cons.mp hf with rfl | hf'
      · simpa [Frame.frameMessageId] using hmid.symm
      · exact ih f hf' mid hmid
    | sources d =>
      rw [List.filterMap_cons] at hf
      simp only [relayFrame] at hf
      rcases List.mem_cons.mp hf with rfl | hf'
      · simpa [Frame.frameMessageId] using hmid.symm
      · exact ih f hf' mid hmid
    | endEvent =>
      rw [List.filterMap_cons] at hf
      simp only [relayFrame] at hf
      exact ih f hf mid hmid
    | errorEvent d =>
      rw [List.filterMap_cons] at hf
      simp only [relayFrame] at hf
      exact ih f hf mid hmid
    | otherData =>
      rw [List.filterMap_cons] at hf
      simp only [relayFrame] at hf
      exact ih f hf mid hmid

/-- The bridge invariant over any run of non-terminal events from an open
writer: the writer stays open, nothing fails, the accumulated text grows by
the concatenated response payloads, the written frames extend by exactly the
relayed frames in order, chats are untouched, and the only persisted
messages are source messages. -/
theorem run_nonterminal (aiId chatId now : String) (oracle : Nat → String)
    (es : List StreamEvent) :
    (∀ e ∈ es, e.isTerminal = false) → ∀ s : BridgeState, s.writer.closed = false →
      (handleEmitterEvents aiId chatId now oracle s es).writer.closed = false ∧
      (handleEmitterEvents aiId chatId now oracle s es).writer.failedWrites
        = s.writer.failedWrites ∧
      (handleEmitterEvents aiId chatId now oracle s es).recievedMessage
        = s.recievedMessage ++ concatResponses es ∧
      (handleEmitterEvents aiId chatId now oracle s es).writer.written
        = s.writer.written ++ es.filterMap (relayFrame aiId) ∧
      (handleEmitterEvents aiId chatId now oracle s es).db.chats = s.db.chats ∧
      ∃ extra : List DBMessage,
        (handleEmitterEvents aiId chatId now oracle s es).db.messages
          = s.db.messages ++ extra ∧ ∀ m ∈ extra, m.role = "source" := by
  induction es with
  | nil =>
    intro _ s hw
    refine ⟨hw, rfl, by simp [handleEmitterEvents, concatResponses],
      by simp [handleEmitterEvents], rfl, [], by simp [handleEmitterEvents], by simp⟩
  | cons e es ih =>
    intro hes s hw
    have he : e.isTerminal = false := hes e (List.mem_cons_self e es)
    have hes' : ∀ x ∈ es, x.isTerminal = false := fun x hx => hes x (List.mem_cons_of_mem e hx)
    cases e with
    | response d =>
      rw [show handleEmitterEvents aiId chatId now oracle s (StreamEvent.response d :: es)
            = handleEmitterEvents aiId chatId now oracle
                (emitterStep aiId chatId now oracle s (.response d)) es from rfl,
          emitterStep_response aiId chatId now oracle s d hw]
      obtain ⟨h1, h2, h3, h4, h5, extra, h6, h7⟩ :=
        ih hes' ⟨s.recievedMessage ++ d, s.ctr,
          ⟨s.writer.written ++ [.message d aiId], false, s.writer.failedWrites⟩, s.db⟩ rfl
      refine ⟨h1, h2, ?_, ?_, h5, extra, h6, h7⟩
      · rw [h3]
        exact String.append_assoc _ _ _
      · rw [h4]
        simp [relayFrame, List.filterMap_cons]
    | sources d =>
      rw [show handleEmitterEvents aiId chatId now oracle s (StreamEvent.sources d :: es)
            = handleEmitterEvents aiId chatId now oracle
                (emitterStep aiId chatId now oracle s (.sources d)) es from rfl,
          emitterStep_sources aiId chatId now oracle s d hw]
      obtain ⟨h1, h2, h3, h4, h5, extra, h6, h7⟩ :=
        ih hes' ⟨s.recievedMessage, s.ctr + 1,
          ⟨s.writer.written ++ [.sources d aiId], false, s.writer.failedWrites⟩,
          s.db.insertMessage (oracle s.ctr) chatId "source" none (some d) now⟩ rfl
      refine ⟨h1, h2, h3, ?_, h5, ⟨s.db.nextId, oracle s.ctr, chatId, "source", none, some d, now⟩ :: extra, ?_, ?_⟩
      · rw [h4]
        simp [relayFrame, List.filterMap_cons]
      · rw [h6]
        simp [DB.insertMessage]
      · intro m hm
        rcases List.mem_cons.mp hm with rfl | hm'
        · rfl
        · exact h7 m hm'
    | endEvent =>
      simp [StreamEvent.isTerminal] at he
    | errorEvent d =>
      simp [StreamEvent.isTerminal] at he
    | otherData =>
      rw [show handleEmitterEvents aiId chatId now oracle s (StreamEvent.otherData :: es)
            = handleEmitterEvents aiId chatId now oracle s es from rfl]
      obtain ⟨h1, h2, h3, h4, h5, extra, h6, h7⟩ := ih hes' s hw
      refine ⟨h1, h2, ?_, ?_, h5, extra, h6, h7⟩
      · rw [h3]
        rfl
      · rw [h4]
        simp [relayFrame, List.filterMap_cons]

theorem find?_append_none {α : Type} (p : α → Bool) (l1 l2 : List α)
    (h : l1.find? p = none) : (l1 ++ l2).find? p = l2.find? p := by
  induction l1 with
  | nil => rfl
  | cons a l ih =>
    cases hpa : p a with
    | true =>
      rw [List.find?_cons_of_pos _ hpa] at h
      exact absurd h (by simp)
    | false =>
      rw [List.find?_cons_of_neg _ (by simp [hpa])] at h
      rw [List.cons_append, List.find?_cons_of_neg _ (by simp [hpa])]
      exact ih h

theorem validateBody_content_length (b : RawBody) (h : validateBody b = true) :
    1 ≤ b.message.content.length := by
  simp only [validateBody, validateMessage, Bool.and_eq_true, decide_eq_true_eq] at h
  exact h.1.1.2

theorem validateBody_content_beq (b : RawBody) (h : validateBody b = true) :
    (b.message.content == "") = false := by
  have hlen := validateBody_content_length b h
  have hne : b.message.content ≠ "" := by
    intro he
    rw [he] at hlen
    simp at hlen
  simpa using hne

theorem recordGet_nil {α : Type} (key : Option String) :
    recordGet ([] : List (String × α)) key = none := by
  cases key <;> rfl

theorem hexDigit_mem (n : Nat) : hexDigit n ∈ hexDigits := by
  unfold hexDigit
  rcases Nat.lt_or_ge n hexDigits.length with h | h
  · rw [List.getD_eq_getElem _ _ h]
    exact List.getElem_mem h
  · rw [List.getD_eq_default _ _ h]
    decide

theorem bytesToHexList_length (bs : List Nat) :
    (bytesToHexList bs).length = 2 * bs.length := by
  induction bs with
  | nil => rfl
  | cons b bs ih =>
    simp [bytesToHexList, byteToHex, ih]
    ring

theorem bytesToHexList_mem (bs : List Nat) : ∀ c ∈ bytesToHexList bs, c ∈ hexDigits := by
  induction bs with
  | nil => simp [bytesToHexList]
  | cons b bs ih =>
    intro c hc
    simp only [bytesToHexList, byteToHex, List.cons_append, List.nil_append,
      List.mem_cons] at hc
    rcases hc with rfl | rfl | hc
    · exact hexDigit_mem _
    · exact hexDigit_mem _
    · exact ih c hc

/-- The chat-table effect of `handleHistorySave`: a missing chat is inserted
with title, focus mode and derived files from the turn; an existing chat row
is never modified (the differing-files update is built but never executed). -/
theorem handleHistorySave_chats (gfd : String → String) (turn : TurnMessage)
    (hid focusMode : String) (files : List String) (now : String) (db : DB) :
    (handleHistorySave gfd turn hid focusMode files now db).chats =
      match db.chats.find? (fun c => c.id == turn.chatId) with
      | none => db.chats ++ [⟨turn.chatId, turn.content, now, focusMode, files.map gfd⟩]
      | some _ => db.chats := by
  unfold handleHistorySave
  cases hc : db.chats.find? (fun c => c.id == turn.chatId) with
  | none =>
    simp only
    cases hm : (({ db with chats := db.chats ++
        [⟨turn.chatId, turn.content, now, focusMode, files.map gfd⟩] } : DB)).messages.find?
        (fun m => m.messageId == hid) <;>
      simp [hm, DB.insertMessage]
  | some c =>
    simp only [ite_self]
    cases hm : db.messages.find? (fun m => m.messageId == hid) <;>
      simp [hm, DB.insertMessage]

/-- The message-table effect of `handleHistorySave`: the lookup is on
`messageId` alone; a miss inserts the user message, a hit deletes every
message of this chat with a strictly greater sequence number. -/
theorem handleHistorySave_messages (gfd : String → String) (turn : TurnMessage)
    (hid focusMode : String) (files : List String) (now : String) (db : DB) :
    (handleHistorySave gfd turn hid focusMode files now db).messages =
      match db.messages.find? (fun m => m.messageId == hid) with
      | none => db.messages ++ [⟨db.nextId, hid, turn.chatId, "user", some turn.content, none, now⟩]
      | some existing =>
        db.messages.filter (fun m => !(decide (existing.id < m.id) && m.chatId == turn.chatId)) := by
  unfold handleHistorySave
  cases hc : db.chats.find? (fun c => c.id == turn.chatId) with
  | none =>
    simp only
    cases hm : db.messages.find? (fun m => m.messageId == hid) <;>
      simp [hm, DB.insertMessage]
  | some c =>
    simp only [ite_self]
    cases hm : db.messages.find? (fun m => m.messageId == hid) <;>
      simp [hm, DB.insertMessage]

/-- The writer after a run of non-terminal events followed by `end`: the
relayed frames then the single `messageEnd` frame, the connection closed,
and no failed write. -/
theorem run_end_writer (aiId chatId now : String) (oracle : Nat → String) (db : DB)
    (pre : List StreamEvent) (hpre : ∀ e ∈ pre, e.isTerminal = false) :
    (handleEmitterEvents aiId chatId now oracle (initialBridgeState db)
        (pre ++ [StreamEvent.endEvent])).writer
      = ⟨pre.filterMap (relayFrame aiId) ++ [Frame.messageEnd], true, 0⟩ := by
  rw [handleEmitterEvents_append]
  obtain ⟨h1, h2, h3, h4, h5, extra, h6, h7⟩ :=
    run_nonterminal aiId chatId now oracle pre hpre (initialBridgeState db) rfl
  rw [show handleEmitterEvents aiId chatId now oracle
        (handleEmitterEvents aiId chatId now oracle (initialBridgeState db) pre)
        [StreamEvent.endEvent]
      = emitterStep aiId chatId now oracle
          (handleEmitterEvents aiId chatId now oracle (initialBridgeState db) pre)
          .endEvent from rfl,
      emitterStep_end _ _ _ _ _ h1]
  have hwr : (handleEmitterEvents aiId chatId now oracle (initialBridgeState db) pre).writer.written
      = pre.filterMap (relayFrame aiId) := h4
  have hfw : (handleEmitterEvents aiId chatId now oracle (initialBridgeState db) pre).writer.failedWrites
      = 0 := h2
  show (⟨_ ++ [Frame.messageEnd], true, _⟩ : WriterState) = _
  rw [hwr, hfw]

/-- The writer after a run of non-terminal events followed by `error`. -/
theorem run_error_writer (aiId chatId now : String) (oracle : Nat → String) (db : DB)
    (pre : List StreamEvent) (d : Json) (hpre : ∀ e ∈ pre, e.isTerminal = false) :
    (handleEmitterEvents aiId chatId now oracle (initialBridgeState db)
        (pre ++ [StreamEvent.errorEvent d])).writer
      = ⟨pre.filterMap (relayFrame aiId) ++ [Frame.error d], true, 0⟩ := by
  rw [handleEmitterEvents_append]
  obtain ⟨h1, h2, h3, h4, h5, extra, h6, h7⟩ :=
    run_nonterminal aiId chatId now oracle pre hpre (initialBridgeState db) rfl
  rw [show handleEmitterEvents aiId chatId now oracle
        (handleEmitterEvents aiId chatId now oracle (initialBridgeState db) pre)
        [StreamEvent.errorEvent d]
      = emitterStep aiId chatId now oracle
          (handleEmitterEvents aiId chatId now oracle (initialBridgeState db) pre)
          (.errorEvent d) from rfl,
      emitterStep_error _ _ _ _ _ _ h1]
  have hwr : (handleEmitterEvents aiId chatId now oracle (initialBridgeState db) pre).writer.written
      = pre.filterMap (relayFrame aiId) := h4
  have hfw : (handleEmitterEvents aiId chatId now oracle (initialBridgeState db) pre).writer.failedWrites
      = 0 := h2
  show (⟨_ ++ [Frame.error d], true, _⟩ : WriterState) = _
  rw [hwr, hfw]

/-- The assistant message persisted on `end` is the last message row, and
its content is the concatenation of all response fragment payloads. -/
theorem run_end_assistant (aiId chatId now : String) (oracle : Nat → String) (db : DB)
    (pre : List StreamEvent) (hpre : ∀ e ∈ pre, e.isTerminal = false) :
    ∃ n : Nat,
      (handleEmitterEvents aiId chatId now oracle (initialBridgeState db)
          (pre ++ [StreamEvent.endEvent])).db.messages.getLast?
        = some ⟨n, aiId, chatId, "assistant", some (concatResponses pre), none, now⟩ := by
  rw [handleEmitterEvents_append]
  obtain ⟨h1, h2, h3, h4, h5, extra, h6, h7⟩ :=
    run_nonterminal aiId chatId now oracle pre hpre (initialBridgeState db) rfl
  rw [show handleEmitterEvents aiId chatId now oracle
        (handleEmitterEvents aiId chatId now oracle (initialBridgeState db) pre)
        [StreamEvent.endEvent]
      = emitterStep aiId chatId now oracle
          (handleEmitterEvents aiId chatId now oracle (initialBridgeState db) pre)
          .endEvent from rfl,
      emitterStep_end _ _ _ _ _ h1]
  have hrecd : (handleEmitterEvents aiId chatId now oracle (initialBridgeState db) pre).recievedMessage
      = concatResponses pre := h3
  refine ⟨(handleEmitterEvents aiId chatId now oracle (initialBridgeState db) pre).db.nextId, ?_⟩
  show ((handleEmitterEvents aiId chatId now oracle (initialBridgeState db) pre).db.messages
      ++ [_]).getLast? = _
  rw [List.getLast?_concat, hrecd]

/-! ### Claim theorems -/

/-- C1: for every turn whose answer stream emits a sequence of non-terminal
events followed by `end`, the assistant message persisted on `end` has
content equal to the concatenation, in arrival order, of all `response`
fragment payloads emitted before `end`, and the `message` frames written to
the client carry exactly those payloads in arrival order. -/
theorem c1_fragment_concat_persisted_and_relayed
    (aiMessageId chatId now : String) (oracle : Nat → String) (db : DB)
    (pre : List StreamEvent) (hpre : ∀ e ∈ pre, e.isTerminal = false) :
    (∃ n : Nat,
      (handleEmitterEvents aiMessageId chatId now oracle (initialBridgeState db)
          (pre ++ [StreamEvent.endEvent])).db.messages.getLast?
        = some ⟨n, aiMessageId, chatId, "assistant", some (concatResponses pre), none, now⟩) ∧
    (handleEmitterEvents aiMessageId chatId now oracle (initialBridgeState db)
        (pre ++ [StreamEvent.endEvent])).writer.written.filterMap messageFramePayload
      = pre.filterMap responsePayload := by
  refine ⟨run_end_assistant aiMessageId chatId now oracle db pre hpre, ?_⟩
  rw [run_end_writer aiMessageId chatId now oracle db pre hpre]
  show (pre.filterMap (relayFrame aiMessageId) ++ [Frame.messageEnd]).filterMap
      messageFramePayload = _
  rw [List.filterMap_append, filterMap_relay_payload]
  simp [messageFramePayload]

/-- C1 witness: a concrete run with fragments "Hel" and "lo" and an
interleaved sources event. -/
theorem c1_witness :
    (∃ n : Nat,
      (handleEmitterEvents "a1b2" "c1" "t" (fun _ => "s1") (initialBridgeState ⟨[], [], 1⟩)
          ([StreamEvent.response "Hel", StreamEvent.sources (Json.str "cite"),
            StreamEvent.response "lo"] ++ [StreamEvent.endEvent])).db.messages.getLast?
        = some ⟨n, "a1b2", "c1", "assistant",
            some (concatResponses [StreamEvent.response "Hel",
              StreamEvent.sources (Json.str "cite"), StreamEvent.response "lo"]), none, "t"⟩) ∧
    (handleEmitterEvents "a1b2" "c1" "t" (fun _ => "s1") (initialBridgeState ⟨[], [], 1⟩)
        ([StreamEvent.response "Hel", StreamEvent.sources (Json.str "cite"),
          StreamEvent.response "lo"] ++ [StreamEvent.endEvent])).writer.written.filterMap
        messageFramePayload
      = [StreamEvent.response "Hel", StreamEvent.sources (Json.str "cite"),
          StreamEvent.response "lo"].filterMap responsePayload :=
  c1_fragment_concat_persisted_and_relayed "a1b2" "c1" "t" (fun _ => "s1") ⟨[], [], 1⟩
    [StreamEvent.response "Hel", StreamEvent.sources (Json.str "cite"),
      StreamEvent.response "lo"]
    (by intro e he; rcases he with _ | ⟨_, _ | ⟨_, _ | ⟨_, h⟩⟩⟩ <;> first | rfl | cases h)

/-- C9: the generated assistant message id has 14 hexadecimal characters;
every `message` and `sources` frame written during the turn carries exactly
that id, and the assistant message persisted on `end` has it as its
`messageId`. -/
theorem c9_assistant_id_consistency (bytes : List Nat) (hlen : bytes.length = 7)
    (chatId now : String) (oracle : Nat → String) (db : DB)
    (pre : List StreamEvent) (hpre : ∀ e ∈ pre, e.isTerminal = false) :
    ((bytesToHex bytes).length = 14) ∧
    (∀ c ∈ (bytesToHex bytes).data, c ∈ hexDigits) ∧
    (∀ f ∈ (handleEmitterEvents (bytesToHex bytes) chatId now oracle (initialBridgeState db)
        (pre ++ [StreamEvent.endEvent])).writer.written,
      ∀ mid, f.frameMessageId = some mid → mid = bytesToHex bytes) ∧
    (∃ n : Nat,
      (handleEmitterEvents (bytesToHex bytes) chatId now oracle (initialBridgeState db)
          (pre ++ [StreamEvent.endEvent])).db.messages.getLast?
        = some ⟨n, bytesToHex bytes, chatId, "assistant",
            some (concatResponses pre), none, now⟩) := by
  refine ⟨?_, ?_, ?_, run_end_assistant (bytesToHex bytes) chatId now oracle db pre hpre⟩
  · show (bytesToHexList bytes).length = 14
    rw [bytesToHexList_length, hlen]
  · intro c hc
    exact bytesToHexList_mem bytes c hc
  · rw [run_end_writer (bytesToHex bytes) chatId now oracle db pre hpre]
    intro f hf mid hmid
    rcases List.mem_append.mp hf with hf' | hf'
    · exact relay_messageId (bytesToHex bytes) pre f hf' mid hmid
    · have hfe : f = Frame.messageEnd := by simpa using hf'
      subst hfe
      simp [Frame.frameMessageId] at hmid

/-- C9 witness: seven concrete bytes and a concrete run. -/
theorem c9_witness :
    ((bytesToHex [18, 52, 86, 120, 154, 188, 222]).length = 14) ∧
    (∀ c ∈ (bytesToHex [18, 52, 86, 120, 154, 188, 222]).data, c ∈ hexDigits) ∧
    (∀ f ∈ (handleEmitterEvents (bytesToHex [18, 52, 86, 120, 154, 188, 222]) "c1" "t"
        (fun _ => "s1") (initialBridgeState ⟨[], [], 1⟩)
        ([StreamEvent.response "Hi"] ++ [StreamEvent.endEvent])).writer.written,
      ∀ mid, f.frameMessageId = some mid → mid = bytesToHex [18, 52, 86, 120, 154, 188, 222]) ∧
    (∃ n : Nat,
      (handleEmitterEvents (bytesToHex [18, 52, 86, 120, 154, 188, 222]) "c1" "t"
          (fun _ => "s1") (initialBridgeState ⟨[], [], 1⟩)
          ([StreamEvent.response "Hi"] ++ [StreamEvent.endEvent])).db.messages.getLast?
        = some ⟨n, bytesToHex [18, 52, 86, 120, 154, 188, 222], "c1", "assistant",
            some (concatResponses [StreamEvent.response "Hi"]), none, "t"⟩) :=
  c9_assistant_id_consistency [18, 52, 86, 120, 154, 188, 222] rfl "c1" "t"
    (fun _ => "s1") ⟨[], [], 1⟩ [StreamEvent.response "Hi"]
    (by intro e he; rcases he with _ | ⟨_, h⟩ <;> first | rfl | cases h)

/-- C3 (amended): for every turn whose answer stream emits non-terminal
events followed by exactly one terminal event, exactly one terminal frame
(`messageEnd` or `error`) is delivered, it is the last delivered frame, the
connection is closed, and no delivered write failed.  However, the code
installs no guard against events after termination: a `sources` event
arriving on a closed writer still persists a source message and still
attempts a client write (which fails); it is not ignored. -/
theorem c3_single_terminal_frame_but_no_guard :
    (∀ (aiId chatId now : String) (oracle : Nat → String) (db : DB)
        (pre : List StreamEvent) (t : StreamEvent),
      (∀ e ∈ pre, e.isTerminal = false) → t.isTerminal = true →
      ((handleEmitterEvents aiId chatId now oracle (initialBridgeState db)
          (pre ++ [t])).writer.closed = true) ∧
      (((handleEmitterEvents aiId chatId now oracle (initialBridgeState db)
          (pre ++ [t])).writer.written.filter Frame.isTerminal).length = 1) ∧
      (∃ f, (handleEmitterEvents aiId chatId now oracle (initialBridgeState db)
          (pre ++ [t])).writer.written.getLast? = some f ∧ f.isTerminal = true) ∧
      ((handleEmitterEvents aiId chatId now oracle (initialBridgeState db)
          (pre ++ [t])).writer.failedWrites = 0)) ∧
    (∀ (aiId chatId now : String) (oracle : Nat → String) (s : BridgeState) (d : Json),
      s.writer.closed = true →
      ((emitterStep aiId chatId now oracle s (.sources d)).db.messages.length
        = s.db.messages.length + 1) ∧
      ((emitterStep aiId chatId now oracle s (.sources d)).writer.failedWrites
        = s.writer.failedWrites + 1) ∧
      ((emitterStep aiId chatId now oracle s (.sources d)).writer.written
        = s.writer.written)) := by
  constructor
  · intro aiId chatId now oracle db pre t hpre ht
    cases t with
    | endEvent =>
      rw [run_end_writer aiId chatId now oracle db pre hpre]
      refine ⟨rfl, ?_, ⟨Frame.messageEnd, ?_, rfl⟩, rfl⟩
      · show ((pre.filterMap (relayFrame aiId) ++ [Frame.messageEnd]).filter
            Frame.isTerminal).length = 1
        rw [List.filter_append, relay_filter_terminal]
        rfl
      · exact List.getLast?_concat _
    | errorEvent d =>
      rw [run_error_writer aiId chatId now oracle db pre d hpre]
      refine ⟨rfl, ?_, ⟨Frame.error d, ?_, rfl⟩, rfl⟩
      · show ((pre.filterMap (relayFrame aiId) ++ [Frame.error d]).filter
            Frame.isTerminal).length = 1
        rw [List.filter_append, relay_filter_terminal]
        rfl
      · exact List.getLast?_concat _
    | response d => simp [StreamEvent.isTerminal] at ht
    | sources d => simp [StreamEvent.isTerminal] at ht
    | otherData => simp [StreamEvent.isTerminal] at ht
  · intro aiId chatId now oracle s d hw
    obtain ⟨r, c, ⟨wr, cl, fw⟩, db⟩ := s
    simp only at hw
    subst hw
    refine ⟨?_, ?_, ?_⟩ <;>
      simp [emitterStep, WriterState.write, DB.insertMessage]

/-- C3 counterexample: a `sources` event received after `end` is processed,
not ignored — it persists a second message row (and its client write fails),
so the defensive-ignoring part of the claim is false on the code. -/
theorem c3_counterexample :
    ((handleEmitterEvents "a1" "c1" "t" (fun _ => "s1") (initialBridgeState ⟨[], [], 1⟩)
        [StreamEvent.endEvent, StreamEvent.sources (Json.str "cite")]).db.messages.length = 2) ∧
    ((handleEmitterEvents "a1" "c1" "t" (fun _ => "s1") (initialBridgeState ⟨[], [], 1⟩)
        [StreamEvent.endEvent]).db.messages.length = 1) ∧
    ((handleEmitterEvents "a1" "c1" "t" (fun _ => "s1") (initialBridgeState ⟨[], [], 1⟩)
        [StreamEvent.endEvent, StreamEvent.sources (Json.str "cite")]).writer.failedWrites
      = 1) := by
  refine ⟨?_, ?_, ?_⟩ <;> rfl

/-- C3 witness: the amended theorem applied to a concrete run and a concrete
closed state. -/
theorem c3_witness :
    ((handleEmitterEvents "a1" "c1" "t" (fun _ => "s1") (initialBridgeState ⟨[], [], 1⟩)
        ([StreamEvent.response "x"] ++ [StreamEvent.endEvent])).writer.closed = true) ∧
    (((handleEmitterEvents "a1" "c1" "t" (fun _ => "s1") (initialBridgeState ⟨[], [], 1⟩)
        ([StreamEvent.response "x"] ++ [StreamEvent.endEvent])).writer.written.filter
        Frame.isTerminal).length = 1) ∧
    ((handleEmitterEvents "a1" "c1" "t" (fun _ => "s1") (initialBridgeState ⟨[], [], 1⟩)
        ([StreamEvent.response "x"] ++ [StreamEvent.endEvent])).writer.failedWrites = 0) ∧
    ((emitterStep "a1" "c1" "t" (fun _ => "s1")
        ⟨"x", 0, ⟨[Frame.messageEnd], true, 0⟩, ⟨[], [], 1⟩⟩
        (.sources (Json.str "cite"))).db.messages.length = 0 + 1) := by
  have h := c3_single_terminal_frame_but_no_guard
  have hA := h.1 "a1" "c1" "t" (fun _ => "s1") ⟨[], [], 1⟩ [StreamEvent.response "x"]
    StreamEvent.endEvent (by intro e he; rcases he with _ | ⟨_, hx⟩ <;> first | rfl | cases hx) rfl
  have hB := h.2 "a1" "c1" "t" (fun _ => "s1")
    ⟨"x", 0, ⟨[Frame.messageEnd], true, 0⟩, ⟨[], [], 1⟩⟩ (Json.str "cite") rfl
  exact ⟨hA.1, hA.2.1, hA.2.2.2, hB.1⟩

/-- C4 counterexample: the record written for an `error` event is not
newline-terminated — its text is the bare `JSON.stringify` output, whose
last character is a closing brace, while every newline-terminated record
ends in a newline. -/
theorem c4_counterexample :
    ¬ ∀ f ∈ (handleEmitterEvents "a1" "c1" "t" (fun _ => "s1")
        (initialBridgeState ⟨[], [], 1⟩)
        [StreamEvent.errorEvent (Json.str "boom")]).writer.written,
      ∃ fields : List (String × Json),
        Frame.wireString f = stringify (Json.obj fields) ++ "\n" := by
  intro h
  have hmem : Frame.error (Json.str "boom")
      ∈ (handleEmitterEvents "a1" "c1" "t" (fun _ => "s1")
        (initialBridgeState ⟨[], [], 1⟩)
        [StreamEvent.errorEvent (Json.str "boom")]).writer.written := by
    show Frame.error (Json.str "boom") ∈ [Frame.error (Json.str "boom")]
    exact List.mem_singleton.mpr rfl
  obtain ⟨fields, hf⟩ := h _ hmem
  have h1 : (Frame.wireString (Frame.error (Json.str "boom"))).data.getLast?
      = some '\x7d' := by decide
  rw [hf, String.data_append] at h1
  have h2 : ("\n" : String).data = ['\n'] := rfl
  rw [h2, List.getLast?_concat] at h1
  exact absurd h1 (by decide)

/-- C4 (amended): every record written to the client is a self-contained
JSON object, and every one of them except the `error` record is terminated
by a newline; the `error` record is written without the trailing newline. -/
theorem c4_framing_newline_except_error (f : Frame) :
    ((∀ d, f ≠ Frame.error d) →
      ∃ fields : List (String × Json),
        Frame.wireString f = stringify (Json.obj fields) ++ "\n") ∧
    (∀ d : Json, Frame.wireString (Frame.error d)
      = stringify (Json.obj [("type", Json.str "error"), ("data", d)])) := by
  constructor
  · intro hne
    cases f with
    | message d mid => exact ⟨_, rfl⟩
    | sources d mid => exact ⟨_, rfl⟩
    | messageEnd => exact ⟨_, rfl⟩
    | error d => exact absurd rfl (hne d)
  · intro d
    rfl

/-- C4 witness: the amended theorem at the `messageEnd` frame and a concrete
error payload. -/
theorem c4_witness :
    (∃ fields : List (String × Json),
      Frame.wireString Frame.messageEnd = stringify (Json.obj fields) ++ "\n") ∧
    Frame.wireString (Frame.error (Json.str "boom"))
      = stringify (Json.obj [("type", Json.str "error"), ("data", Json.str "boom")]) :=
  ⟨(c4_framing_newline_except_error Frame.messageEnd).1 (fun _ h => Frame.noConfusion h),
   (c4_framing_newline_except_error Frame.messageEnd).2 (Json.str "boom")⟩

/-- C2 counterexample: the lookup for the resubmitted turn is not restricted
to the turn's chat — it filters on `messageId` alone.  Here the same
messageId also exists in another chat with a smaller sequence number; the
route finds that row first, uses its id as the deletion threshold, and
thereby deletes the existing user message of this very chat instead of
leaving it untouched. -/
theorem c2_counterexample :
    (∃ x ∈ ([⟨1, "m1", "c2", "user", some "hi", none, "t0"⟩,
             ⟨2, "m1", "c1", "user", some "hello", none, "t0"⟩,
             ⟨3, "x1", "c1", "assistant", some "ans", none, "t0"⟩] : List DBMessage),
      x.messageId = "m1" ∧ x.chatId = "c1") ∧
    (∀ x ∈ (handleHistorySave (fun s => s) ⟨"m1", "c1", "hello"⟩ "m1" "webSearch" [] "t1"
        ⟨[⟨"c1", "hello", "t0", "webSearch", []⟩, ⟨"c2", "hi", "t0", "webSearch", []⟩],
         [⟨1, "m1", "c2", "user", some "hi", none, "t0"⟩,
          ⟨2, "m1", "c1", "user", some "hello", none, "t0"⟩,
          ⟨3, "x1", "c1", "assistant", some "ans", none, "t0"⟩], 4⟩).messages,
      ¬(x.messageId = "m1" ∧ x.chatId = "c1")) := by
  constructor
  · exact ⟨⟨2, "m1", "c1", "user", some "hello", none, "t0"⟩,
      by simp, rfl, rfl⟩
  · intro x hx
    have hx' : x ∈ [(⟨1, "m1", "c2", "user", some "hi", none, "t0"⟩ : DBMessage)] := hx
    rw [List.mem_singleton] at hx'
    subst hx'
    intro hcon
    exact absurd hcon.2 (by decide)

/-- C2 (amended): the resubmission lookup is by `messageId` alone, with no
chat restriction.  Provided the first stored message bearing the turn's
messageId (in sequence order) does belong to the turn's chat, the reconciler
deletes exactly the messages of this chat with a strictly greater sequence
number, inserts no new message, and leaves the existing user message —
including its content — unchanged. -/
theorem c2_resubmission_reconciliation (gfd : String → String) (turn : TurnMessage)
    (focusMode : String) (files : List String) (now : String) (db : DB) (m : DBMessage)
    (hfind : db.messages.find? (fun x => x.messageId == turn.messageId) = some m)
    (_hchat : m.chatId = turn.chatId) :
    ((handleHistorySave gfd turn turn.messageId focusMode files now db).messages
      = db.messages.filter (fun x => !(decide (m.id < x.id) && x.chatId == turn.chatId))) ∧
    m ∈ (handleHistorySave gfd turn turn.messageId focusMode files now db).messages ∧
    (∀ x ∈ (handleHistorySave gfd turn turn.messageId focusMode files now db).messages,
      x ∈ db.messages) ∧
    (∀ x ∈ db.messages, x.chatId = turn.chatId → m.id < x.id →
      x ∉ (handleHistorySave gfd turn turn.messageId focusMode files now db).messages) := by
  have hmsgs := handleHistorySave_messages gfd turn turn.messageId focusMode files now db
  rw [hfind] at hmsgs
  refine ⟨hmsgs, ?_, ?_, ?_⟩
  · rw [hmsgs]
    refine List.mem_filter.mpr ⟨List.mem_of_find?_eq_some hfind, ?_⟩
    simp
  · intro x hx
    rw [hmsgs] at hx
    exact List.mem_of_mem_filter hx
  · intro x _ hcx hlt hmem
    rw [hmsgs] at hmem
    have hpred := (List.mem_filter.mp hmem).2
    simp [hcx, hlt] at hpred

/-- C2 witness: the amended theorem at a concrete resubmission whose looked
up message is the one in this chat. -/
theorem c2_witness :
    ((handleHistorySave (fun s => s) ⟨"m1", "c1", "hello"⟩ "m1" "webSearch" [] "t1"
        ⟨[⟨"c1", "hello", "t0", "webSearch", []⟩],
         [⟨1, "m1", "c1", "user", some "hello", none, "t0"⟩,
          ⟨2, "s1", "c1", "source", none, none, "t0"⟩], 3⟩).messages
      = ([⟨1, "m1", "c1", "user", some "hello", none, "t0"⟩,
          ⟨2, "s1", "c1", "source", none, none, "t0"⟩] : List DBMessage).filter
          (fun x => !(decide ((1 : Nat) < x.id) && x.chatId == "c1"))) ∧
    (⟨1, "m1", "c1", "user", some "hello", none, "t0"⟩ : DBMessage)
      ∈ (handleHistorySave (fun s => s) ⟨"m1", "c1", "hello"⟩ "m1" "webSearch" [] "t1"
        ⟨[⟨"c1", "hello", "t0", "webSearch", []⟩],
         [⟨1, "m1", "c1", "user", some "hello", none, "t0"⟩,
          ⟨2, "s1", "c1", "source", none, none, "t0"⟩], 3⟩).messages := by
  have h := c2_resubmission_reconciliation (fun s => s) ⟨"m1", "c1", "hello"⟩
    "webSearch" [] "t1"
    ⟨[⟨"c1", "hello", "t0", "webSearch", []⟩],
     [⟨1, "m1", "c1", "user", some "hello", none, "t0"⟩,
      ⟨2, "s1", "c1", "source", none, none, "t0"⟩], 3⟩
    ⟨1, "m1", "c1", "user", some "hello", none, "t0"⟩ rfl rfl
  exact ⟨h.1, h.2.1⟩

/-- C6 (code bug): on an existing chat whose stored file set (`[]`) differs
structurally from the turn's derived file set (`["f1"]`), `Chat.files` is
not updated: the route builds the drizzle update for this branch but never
awaits or executes it, so the chat row keeps its old files. -/
theorem c6_files_update_never_runs :
    ((handleHistorySave (fun s => s) ⟨"m2", "c1", "hello again"⟩ "m2" "webSearch"
        ["f1"] "t1"
        ⟨[⟨"c1", "hello", "t0", "webSearch", []⟩],
         [⟨1, "m1", "c1", "user", some "hello", none, "t0"⟩], 2⟩).chats
      = [⟨"c1", "hello", "t0", "webSearch", []⟩]) ∧
    (([] : List String) ≠ ["f1"]) := by
  exact ⟨rfl, by decide⟩

/-- C8: a first-time turn on an unknown chatId inserts exactly one chat row,
with title equal to the turn's content, the current focus mode, and the
derived file set; any second turn on the same chatId leaves the chat table
unchanged — no duplicate chat row is inserted. -/
theorem c8_first_turn_inserts_chat_once (gfd : String → String) (turn : TurnMessage)
    (focusMode : String) (files : List String) (now : String) (db : DB)
    (habsent : db.chats.find? (fun c => c.id == turn.chatId) = none) :
    ((handleHistorySave gfd turn turn.messageId focusMode files now db).chats
      = db.chats ++ [⟨turn.chatId, turn.content, now, focusMode, files.map gfd⟩]) ∧
    (((handleHistorySave gfd turn turn.messageId focusMode files now db).chats.filter
        (fun c => c.id == turn.chatId)).length = 1) ∧
    (∀ (turn2 : TurnMessage) (hid2 fm2 : String) (files2 : List String) (now2 : String),
      turn2.chatId = turn.chatId →
      (handleHistorySave gfd turn2 hid2 fm2 files2 now2
          (handleHistorySave gfd turn turn.messageId focusMode files now db)).chats
        = (handleHistorySave gfd turn turn.messageId focusMode files now db).chats) := by
  have hchats := handleHistorySave_chats gfd turn turn.messageId focusMode files now db
  rw [habsent] at hchats
  have hfilter0 : db.chats.filter (fun c => c.id == turn.chatId) = [] := by
    rw [List.filter_eq_nil_iff]
    intro c hc
    simpa using List.find?_eq_none.mp habsent c hc
  refine ⟨hchats, ?_, ?_⟩
  · rw [hchats, List.filter_append, hfilter0]
    simp
  · intro turn2 hid2 fm2 files2 now2 h2
    have hchats2 := handleHistorySave_chats gfd turn2 hid2 fm2 files2 now2
      (handleHistorySave gfd turn turn.messageId focusMode files now db)
    rw [hchats, h2] at hchats2
    rw [find?_append_none _ _ _ habsent] at hchats2
    rw [List.find?_cons_of_pos _ (by simp)] at hchats2
    rw [hchats2, hchats]

/-- C8 witness: a concrete first turn on an empty store, and a concrete
second turn on the same chat. -/
theorem c8_witness :
    ((handleHistorySave (fun s => s) ⟨"m1", "c1", "hello"⟩ "m1" "webSearch" ["f1"] "t0"
        ⟨[], [], 1⟩).chats
      = [] ++ [⟨"c1", "hello", "t0", "webSearch", ["f1"]⟩]) ∧
    (((handleHistorySave (fun s => s) ⟨"m1", "c1", "hello"⟩ "m1" "webSearch" ["f1"] "t0"
        ⟨[], [], 1⟩).chats.filter (fun c => c.id == "c1")).length = 1) ∧
    ((handleHistorySave (fun s => s) ⟨"m2", "c1", "again"⟩ "m2" "webSearch" [] "t1"
        (handleHistorySave (fun s => s) ⟨"m1", "c1", "hello"⟩ "m1" "webSearch" ["f1"] "t0"
          ⟨[], [], 1⟩)).chats
      = (handleHistorySave (fun s => s) ⟨"m1", "c1", "hello"⟩ "m1" "webSearch" ["f1"] "t0"
          ⟨[], [], 1⟩).chats) := by
  have h := c8_first_turn_inserts_chat_once (fun s => s) ⟨"m1", "c1", "hello"⟩
    "webSearch" ["f1"] "t0" ⟨[], [], 1⟩ rfl
  exact ⟨h.1, h.2.1, h.2.2 ⟨"m2", "c1", "again"⟩ "m2" "webSearch" [] "t1" rfl⟩

/-- C5 counterexample: with an empty model catalog (and no provider
override), the request does not fail with 400 "Invalid chat model" — the
indexing of the undefined provider object throws a TypeError and the
catch-all returns the generic 500 response instead. -/
theorem c5_counterexample :
    (POST [] [] (fun _ => true)
        ⟨⟨"m1", "c1", "hello"⟩, "balanced", "webSearch", [], [],
          none, none, none, none, none⟩
      = PostResponse.serverError) ∧
    (PostResponse.serverError ≠ PostResponse.badRequestError "Invalid chat model") := by
  exact ⟨rfl, by decide⟩

/-- C5 (amended): when the chosen chat provider exists but the chat model
entry is missing (and the provider override is not `custom_openai`) while
the embedding side resolves, the request fails with a 400 whose body is
"Invalid chat model"; when the chat model resolves but the embedding entry's
`model` is falsy, the 400 body is "Invalid embedding model"; but an empty
chat catalog (or a missing provider) makes the resolution throw, and the
request fails with the generic 500 instead of the 400.  No retry exists:
`POST` is a single evaluation. -/
theorem c5_resolution_failures :
    (∀ (chatCat embedCat : Catalog) (handlers : String → Bool) (b : RawBody)
        (cp ep : ProviderModels) (e : Bool),
      validateBody b = true →
      recordGet chatCat (jsOrKey b.chatModelProvider (firstKey chatCat)) = some cp →
      recordGet cp (jsOrKey b.chatModelName (firstKey cp)) = none →
      b.chatModelProvider ≠ some "custom_openai" →
      recordGet embedCat (jsOrKey b.embeddingModelProvider (firstKey embedCat)) = some ep →
      recordGet ep (jsOrKey b.embeddingModelName (firstKey ep)) = some e →
      POST chatCat embedCat handlers b = PostResponse.badRequestError "Invalid chat model") ∧
    (∀ (chatCat embedCat : Catalog) (handlers : String → Bool) (b : RawBody)
        (cp ep : ProviderModels),
      validateBody b = true →
      recordGet chatCat (jsOrKey b.chatModelProvider (firstKey chatCat)) = some cp →
      recordGet cp (jsOrKey b.chatModelName (firstKey cp)) = some true →
      recordGet embedCat (jsOrKey b.embeddingModelProvider (firstKey embedCat)) = some ep →
      recordGet ep (jsOrKey b.embeddingModelName (firstKey ep)) = some false →
      POST chatCat embedCat handlers b = PostResponse.badRequestError "Invalid embedding model") ∧
    (∀ (embedCat : Catalog) (handlers : String → Bool) (b : RawBody),
      validateBody b = true →
      POST [] embedCat handlers b = PostResponse.serverError) := by
  refine ⟨?_, ?_, ?_⟩
  · intro chatCat embedCat handlers b cp ep e hv hcp hcm hcust hep hem
    have hbeq := validateBody_content_beq b hv
    have hcustb : (b.chatModelProvider == some "custom_openai") = false := by
      simpa using hcust
    have hres : resolveModelsPhase chatCat embedCat b = .ok .invalidChatModel := by
      unfold resolveModelsPhase
      rw [hcp]
      dsimp only
      rw [hep]
      dsimp only
      rw [hem]
      dsimp only
      rw [hcm, hcustb]
      rfl
    unfold POST
    rw [hv, hbeq, hres]
    simp
  · intro chatCat embedCat handlers b cp ep hv hcp hcm hep hem
    have hbeq := validateBody_content_beq b hv
    have hres : resolveModelsPhase chatCat embedCat b = .ok .invalidEmbeddingModel := by
      unfold resolveModelsPhase
      rw [hcp]
      dsimp only
      rw [hep]
      dsimp only
      rw [hem]
      dsimp only
      rw [hcm]
      simp
    unfold POST
    rw [hv, hbeq, hres]
    simp
  · intro embedCat handlers b hv
    have hbeq := validateBody_content_beq b hv
    have hres : resolveModelsPhase [] embedCat b = .error () := by
      unfold resolveModelsPhase
      rw [recordGet_nil]
    unfold POST
    rw [hv, hbeq, hres]
    simp

/-- C5 witness: the amended theorem at three concrete catalogs and bodies. -/
theorem c5_witness :
    (POST [("openai", [("gpt", true)])] [("openai", [("embed", true)])] (fun _ => true)
        ⟨⟨"m1", "c1", "hello"⟩, "speed", "webSearch", [], [],
          some "openai", some "nope", none, none, none⟩
      = PostResponse.badRequestError "Invalid chat model") ∧
    (POST [("openai", [("gpt", true)])] [("openai", [("embed", false)])] (fun _ => true)
        ⟨⟨"m1", "c1", "hello"⟩, "speed", "webSearch", [], [],
          some "openai", none, none, none, none⟩
      = PostResponse.badRequestError "Invalid embedding model") ∧
    (POST [] [("openai", [("embed", true)])] (fun _ => true)
        ⟨⟨"m1", "c1", "hello"⟩, "speed", "webSearch", [], [],
          none, none, none, none, none⟩
      = PostResponse.serverError) := by
  have h := c5_resolution_failures
  refine ⟨?_, ?_, ?_⟩
  · exact h.1 [("openai", [("gpt", true)])] [("openai", [("embed", true)])] (fun _ => true)
      ⟨⟨"m1", "c1", "hello"⟩, "speed", "webSearch", [], [],
        some "openai", some "nope", none, none, none⟩
      [("gpt", true)] [("embed", true)] true rfl rfl rfl (by decide) rfl rfl
  · exact h.2.1 [("openai", [("gpt", true)])] [("openai", [("embed", false)])] (fun _ => true)
      ⟨⟨"m1", "c1", "hello"⟩, "speed", "webSearch", [], [],
        some "openai", none, none, none, none⟩
      [("gpt", true)] [("embed", false)] rfl rfl rfl rfl rfl
  · exact h.2.2 [("openai", [("embed", true)])] (fun _ => true)
      ⟨⟨"m1", "c1", "hello"⟩, "speed", "webSearch", [], [],
        none, none, none, none, none⟩ rfl

/-- C7 counterexample: with `systemInstructions: null` in the body, zod's
`.default(...)` does not apply (it replaces only an absent value), and the
handler receives `null` rather than the built-in instruction set. -/
theorem c7_counterexample :
    (parsedSystemInstructions (some none) = none) ∧
    (parsedSystemInstructions (some none) ≠ some DEFAULT_SYSTEM_INSTRUCTIONS) := by
  exact ⟨rfl, fun h => Option.noConfusion h⟩

/-- C7 (amended): when `systemInstructions` is absent, the handler is
invoked with the fixed built-in instruction set; when it is `null`, the
default does not apply and the handler receives `null`; a supplied string is
passed through unchanged. -/
theorem c7_default_instructions :
    (parsedSystemInstructions none = some DEFAULT_SYSTEM_INSTRUCTIONS) ∧
    (parsedSystemInstructions (some none) = none) ∧
    (∀ s : String, parsedSystemInstructions (some (some s)) = some s) :=
  ⟨rfl, rfl, fun _ => rfl⟩

/-- C10: every request body that passes `bodySchema` validation has a
non-empty `message.content` (the schema requires length at least 1), so the
post-validation guard returning 400 "Please provide a message to process" is
unreachable: `POST` never produces that response, whatever the catalogs and
handler registry are. -/
theorem c10_empty_content_guard_unreachable
    (chatModelProviders embeddingModelProviders : Catalog)
    (searchHandlerExists : String → Bool) (b : RawBody) :
    POST chatModelProviders embeddingModelProviders searchHandlerExists b
      ≠ PostResponse.badRequestEmptyContent := by
  unfold POST
  cases hv : validateBody b with
  | false => simp
  | true =>
    have hbeq := validateBody_content_beq b hv
    rw [hbeq]
    cases hres : resolveModelsPhase chatModelProviders embeddingModelProviders b with
    | error e =>
      cases e
      simp
    | ok o =>
      cases o with
      | invalidChatModel => simp
      | invalidEmbeddingModel => simp
      | resolved =>
        cases hh : searchHandlerExists b.focusMode <;> simp [hh]

end ChatRoute
